import Mathlib

/-!
Verification of the microbridge ADB protocol engine (`src/mcu/adb.c`).

The development gives a shallow embedding of the protocol engine: the message
codec (`adb_writeMessage` / `adb_writeEmptyMessage` / `adb_pollMessage`), the
connection pool and its state machine (`adb_addConnection`, `adb_handleOkay`,
`adb_handleClose`, `adb_handleWrite`, `adb_openClosedConnections`,
`adb_closeAll`, `adb_usbEventHandler`), and the outbound write path
(`adb_write`, `adb_writeString`).  Machine integers are modelled as `Nat`
(resp. `Int` for signed return codes) with explicit reduction modulo `2 ^ 32`
where 32-bit wrap-around matters.  Side effects (USB bulk reads/writes, fired
events) are modelled as explicit oracle inputs and trace outputs.

The header `adb.h` is not part of the sources; the few constants it defines
that matter here are modelled from the spec (see the doc comments on
`ADB_USB_PACKETSIZE` and the command opcodes) or kept as explicit parameters
(the retry interval, the maximal connection-string length, the pool size).
-/

/-- Connection lifecycle states, the `adb_connectionStatus` enum of the code
(spec section 3: UNUSED, CLOSED, OPENING, OPEN, WRITING, RECEIVING). -/
inductive adb_connectionStatus
| ADB_UNUSED
| ADB_CLOSED
| ADB_OPENING
| ADB_OPEN
| ADB_WRITING
| ADB_RECEIVING
deriving DecidableEq, Repr

open adb_connectionStatus

/-- Event types fired through `adb_fireEvent` (spec section 4.4). -/
inductive adb_eventType
| ADB_CONNECT
| ADB_CONNECTION_OPEN
| ADB_CONNECTION_CLOSE
| ADB_CONNECTION_FAILED
| ADB_CONNECTION_RECEIVE
deriving DecidableEq, Repr

open adb_eventType

/-- Modelled from the spec: the 32-bit ADB command opcodes (`A_SYNC` etc.).
Their defining header is absent from `src/`; the spec (section 3) lists the
command set {CONNECT, OPEN, OKAY, CLOSE, WRITE, SYNC} as 32-bit opcodes.  The
concrete values are the standard ADB wire values; no claim depends on them
beyond their being distinct 32-bit constants. -/
def A_SYNC : Nat := 0x434e5953

/-- Modelled from the spec: the CONNECT opcode (see `A_SYNC`). -/
def A_CNXN : Nat := 0x4e584e43

/-- Modelled from the spec: the OPEN opcode (see `A_SYNC`). -/
def A_OPEN : Nat := 0x4e45504f

/-- Modelled from the spec: the OKAY opcode (see `A_SYNC`). -/
def A_OKAY : Nat := 0x59414b4f

/-- Modelled from the spec: the CLOSE opcode (see `A_SYNC`). -/
def A_CLSE : Nat := 0x45534c43

/-- Modelled from the spec: the WRITE opcode (see `A_SYNC`). -/
def A_WRTE : Nat := 0x45545257

/-- Modelled from the spec: `ADB_USB_PACKETSIZE`, the maximal single bulk
transport packet size.  Its defining header is absent from `src/`; spec
section 6 fixes it at 64 bytes in the observed configuration. -/
def ADB_USB_PACKETSIZE : Nat := 64

/-- The `adb_message` struct: the fixed 24-byte wire header, six 32-bit
fields. -/
structure adb_message where
  command : Nat
  arg0 : Nat
  arg1 : Nat
  data_length : Nat
  data_check : Nat
  magic : Nat
deriving DecidableEq, Repr

/-- Little-endian byte serialisation of one 32-bit field (the memory layout
`usb_bulkWrite` transmits for each `uint32_t` struct member). -/
def le32 (n : Nat) : List Nat :=
  [n % 256, n / 256 % 256, n / 65536 % 256, n / 16777216 % 256]

/-- Little-endian deserialisation of one 32-bit field from four bytes. -/
def un32 (b0 b1 b2 b3 : Nat) : Nat :=
  b0 + 256 * b1 + 65536 * b2 + 16777216 * b3

/-- The 24 header bytes of an `adb_message` as written to the bulk endpoint
by `usb_bulkWrite(device, sizeof(adb_message), (uint8_t*)&message)`. -/
def adb_encodeHeader (m : adb_message) : List Nat :=
  le32 m.command ++ le32 m.arg0 ++ le32 m.arg1 ++
    le32 m.data_length ++ le32 m.data_check ++ le32 m.magic

/-- Read one 32-bit little-endian field at byte offset `off` of a received
buffer (the `memcpy((void*)message, (void*)buf, sizeof(adb_message))` view). -/
def read32 (buf : List Nat) (off : Nat) : Nat :=
  un32 (buf.getD off 0) (buf.getD (off + 1) 0) (buf.getD (off + 2) 0)
    (buf.getD (off + 3) 0)

/-- Reinterpret a received byte buffer as an `adb_message` header (the
`memcpy` in `adb_pollMessage`). -/
def adb_decodeHeader (buf : List Nat) : adb_message :=
  { command := read32 buf 0
    arg0 := read32 buf 4
    arg1 := read32 buf 8
    data_length := read32 buf 12
    data_check := read32 buf 16
    magic := read32 buf 20 }

/-- The payload checksum loop of `adb_writeMessage`:
`while(count-- > 0) sum += *x++;` with `uint32_t sum`, i.e. the byte sum
accumulated modulo `2 ^ 32`. -/
def adb_checksum (payload : List Nat) : Nat :=
  payload.foldl (fun s b => (s + b) % 2 ^ 32) 0

/-- The header record filled out by `adb_writeMessage` for a payload-carrying
message: `data_length` is the payload byte count, `data_check` the wrapping
byte sum, `magic = command ^ 0xffffffff`. -/
def adb_writeMessage_message (command arg0 arg1 : Nat) (payload : List Nat) :
    adb_message :=
  { command := command
    arg0 := arg0
    arg1 := arg1
    data_length := payload.length
    data_check := adb_checksum payload
    magic := Nat.xor command 0xffffffff }

/-- The header record filled out by `adb_writeEmptyMessage`: zero payload
length and zero checksum. -/
def adb_writeEmptyMessage_message (command arg0 arg1 : Nat) : adb_message :=
  { command := command
    arg0 := arg0
    arg1 := arg1
    data_length := 0
    data_check := 0
    magic := Nat.xor command 0xffffffff }

/-- Function `adb_pollMessage`: given the byte count returned by `usb_bulkRead` and the
received buffer, yields the decoded header iff the transfer succeeded
(`bytesRead >= 0`), the magic field equals `command ^ 0xffffffff`, and exactly
the 24 header bytes were read; otherwise no valid message is reported. -/
def adb_pollMessage (bytesRead : Int) (buf : List Nat) : Option adb_message :=
  if bytesRead < 0 then none
  else
    let m := adb_decodeHeader buf
    if m.magic ≠ Nat.xor m.command 0xffffffff then none
    else if bytesRead ≠ 24 then none
    else some m

/-- One slot of the connection pool, the `adb_connection` record.  The
per-connection event-handler function pointer is not modelled; fired events
are explicit trace outputs of the operations instead. -/
structure adb_connection where
  connectionString : List Nat
  localID : Nat
  status : adb_connectionStatus
  lastConnectionAttempt : Nat
  reconnect : Bool
  remoteID : Nat
  dataRead : Nat
  dataSize : Nat
deriving DecidableEq, Repr

/-- A zero-initialised slot: the state of each entry of the static
`connections` array at program start (C statics are zero-initialised, and the
first `adb_connectionStatus` enumerator is `ADB_UNUSED`). -/
def adb_connection.initial : adb_connection :=
  { connectionString := []
    localID := 0
    status := ADB_UNUSED
    lastConnectionAttempt := 0
    reconnect := false
    remoteID := 0
    dataRead := 0
    dataSize := 0 }

/-- Function `adb_addConnection`: reject a connection string longer than
`maxLen - 1` characters (`maxLen` stands for `ADB_CONNECTSTRING_LENGTH`,
whose defining header is absent from `src/`; it is kept as an explicit
parameter), else claim the first `ADB_UNUSED` slot, storing the string and
setting `localID = index + 1`, status `ADB_CLOSED`, attempt time 0 and the
`reconnect` flag.  Returns the updated pool and the claimed slot index, or
`none` when the string is too long or no slot is free. -/
def adb_addConnection (maxLen : Nat) (connectionString : List Nat)
    (reconnect : Bool) (conns : List adb_connection) :
    List adb_connection × Option Nat :=
  if connectionString.length + 1 > maxLen then (conns, none)
  else
    let idx := conns.findIdx (fun c => decide (c.status = ADB_UNUSED))
    if h : idx < conns.length then
      (conns.set idx
        { conns.get ⟨idx, h⟩ with
            connectionString := connectionString
            localID := idx + 1
            status := ADB_CLOSED
            lastConnectionAttempt := 0
            reconnect := reconnect },
        some idx)
    else (conns, none)

/-- 32-bit wrapping subtraction `a - r` where `a` is a `uint32_t` value and
`r` an `int` (C converts `r` to `uint32_t`; arithmetic is modulo `2 ^ 32`). -/
def sub32 (a : Nat) (r : Int) : Nat :=
  (((a : Int) - r) % (2 ^ 32 : Int)).toNat

/-- Function `adb_handleOkay`: an OKAY for an OPENING connection records the peer
stream id from `arg0`, moves to OPEN and fires CONNECTION_OPEN; the two `if`s
run sequentially, so the WRITING check sees the possibly-updated status. -/
def adb_handleOkay (connection : adb_connection) (message : adb_message) :
    adb_connection × List adb_eventType :=
  let step1 :=
    if connection.status = ADB_OPENING then
      ({ connection with status := ADB_OPEN, remoteID := message.arg0 },
        [ADB_CONNECTION_OPEN])
    else (connection, [])
  if step1.1.status = ADB_WRITING then
    ({ step1.1 with status := ADB_OPEN }, step1.2)
  else step1

/-- Function `adb_handleClose`: fire CONNECTION_FAILED when the connection was still
OPENING, CONNECTION_CLOSE otherwise; persistent connections drop to CLOSED,
others to UNUSED. -/
def adb_handleClose (connection : adb_connection) :
    adb_connection × adb_eventType :=
  let ev :=
    if connection.status = ADB_OPENING then ADB_CONNECTION_FAILED
    else ADB_CONNECTION_CLOSE
  let st := if connection.reconnect then ADB_CLOSED else ADB_UNUSED
  ({ connection with status := st }, ev)

/-- The `while (bytesLeft > 0)` reassembly loop of `adb_handleWrite`.
`reads k len` is the `usb_bulkRead` oracle for the `k`-th call with requested
length `len`; each iteration requests `min bytesLeft ADB_USB_PACKETSIZE`
bytes, advances `dataRead` by the requested length (modulo `2 ^ 32`), fires
one CONNECTION_RECEIVE event of that length, and decrements `bytesLeft` by
the oracle's return value with 32-bit wrap-around.  `fuel` bounds the number
of iterations (the C loop is unbounded); `none` means the loop has not
terminated within `fuel` iterations.  On termination it returns the fired
chunk lengths and the final `dataRead`. -/
def adb_handleWriteLoop (reads : Nat → Nat → Int) :
    Nat → Nat → Nat → Nat → List Nat → Option (List Nat × Nat)
  | 0, _, bytesLeft, dataRead, events =>
    if bytesLeft = 0 then some (events, dataRead) else none
  | fuel + 1, k, bytesLeft, dataRead, events =>
    if bytesLeft = 0 then some (events, dataRead)
    else
      let len := min bytesLeft ADB_USB_PACKETSIZE
      let bytesRead := reads k len
      adb_handleWriteLoop reads fuel (k + 1) (sub32 bytesLeft bytesRead)
        ((dataRead + len) % 2 ^ 32) (events ++ [len])

/-- Function `adb_handleWrite`: run the reassembly loop on the frame's declared
`data_length`; on loop termination the connection's status is restored to its
entry value, `dataRead`/`dataSize` hold the final progress counters, and a
single OKAY reply is sent whose `arg0`/`arg1` are the frame's `arg1`/`arg0`
swapped.  Returns the updated connection, the fired CONNECTION_RECEIVE events
and the OKAY header, or `none` when the loop did not terminate within
`fuel` iterations. -/
def adb_handleWrite (reads : Nat → Nat → Int) (fuel : Nat)
    (connection : adb_connection) (message : adb_message) :
    Option (adb_connection × List (adb_eventType × Nat) × adb_message) :=
  let previousStatus := connection.status
  match adb_handleWriteLoop reads fuel 0 message.data_length 0 [] with
  | none => none
  | some (events, dataRead) =>
    some
      ({ connection with
          status := previousStatus
          dataRead := dataRead
          dataSize := message.data_length },
        events.map (fun len => (ADB_CONNECTION_RECEIVE, len)),
        adb_writeEmptyMessage_message A_OKAY message.arg1 message.arg0)

/-- Per-slot body of `adb_openClosedConnections`: when the slot is CLOSED and
`avr_millis() - lastConnectionAttempt` (32-bit wrap-around) strictly exceeds
the retry interval, send `OPEN(localID, 0, connectionString)` (string payload
with its trailing NUL, via `adb_writeStringMessage`) and move to OPENING with
the attempt time recorded.  `retryTime` stands for
`ADB_CONNECTION_RETRY_TIME` (header absent from `src/`; explicit parameter);
`now` is the `avr_millis()` reading. -/
def adb_openConnectionStep (retryTime now : Nat) (c : adb_connection) :
    adb_connection × Option adb_message :=
  if c.status = ADB_CLOSED ∧ sub32 now (c.lastConnectionAttempt : Int) > retryTime then
    ({ c with status := ADB_OPENING, lastConnectionAttempt := now },
      some (adb_writeMessage_message A_OPEN c.localID 0 (c.connectionString ++ [0])))
  else (c, none)

/-- Function `adb_openClosedConnections`: apply the per-slot retry gate across the
pool; the second component collects the OPEN headers sent, in slot order. -/
def adb_openClosedConnections (retryTime now : Nat)
    (conns : List adb_connection) : List adb_connection × List adb_message :=
  (conns.map (fun c => (adb_openConnectionStep retryTime now c).1),
    conns.filterMap (fun c => (adb_openConnectionStep retryTime now c).2))

/-- The loop of `adb_closeAll`, carrying the current slot index: slots that
are UNUSED or CLOSED are skipped, every other slot goes through
`adb_handleClose`; fired events are collected as (slot index, event type)
pairs in slot order. -/
def adb_closeAllAux : Nat → List adb_connection →
    List adb_connection × List (Nat × adb_eventType)
  | _, [] => ([], [])
  | i, c :: rest =>
    let tail := adb_closeAllAux (i + 1) rest
    if c.status = ADB_UNUSED ∨ c.status = ADB_CLOSED then (c :: tail.1, tail.2)
    else
      ((adb_handleClose c).1 :: tail.1, (i, (adb_handleClose c).2) :: tail.2)

/-- Function `adb_closeAll`: force-close every slot that is neither UNUSED nor
CLOSED. -/
def adb_closeAll (conns : List adb_connection) :
    List adb_connection × List (Nat × adb_eventType) :=
  adb_closeAllAux 0 conns

/-- USB hotplug event kinds delivered to `adb_usbEventHandler`. -/
inductive usb_eventType
| USB_CONNECT
| USB_DISCONNECT
deriving DecidableEq, Repr

/-- The engine's global mutable state: the `adbDevice` pointer (an opaque
device handle or `none`), the `connected` flag, and the `connections`
array. -/
structure AdbState where
  adbDevice : Option Nat
  connected : Bool
  connections : List adb_connection
deriving DecidableEq, Repr

/-- Function `adb_usbEventHandler`.  The flag `isAdb` abstracts the result of
`adb_isAdbDevice` (USB descriptor parsing is outside the modelled core);
attaching stores the device handle (`adb_initUsb` ends with
`adbDevice = device`).  On USB_DISCONNECT of the current device: run
`adb_closeAll`, detach the device and clear `connected`.  Returns the new
state and the fired (slot index, event) pairs. -/
def adb_usbEventHandler (isAdb : Bool) (st : AdbState) (device : Nat)
    (event : usb_eventType) : AdbState × List (Nat × adb_eventType) :=
  match event with
  | usb_eventType.USB_CONNECT =>
    if isAdb then ({ st with adbDevice := some device }, []) else (st, [])
  | usb_eventType.USB_DISCONNECT =>
    if st.adbDevice = some device then
      ({ adbDevice := none
         connected := false
         connections := (adb_closeAll st.connections).1 },
        (adb_closeAll st.connections).2)
    else (st, [])

/-- Function `adb_write`: fail with -1 when no device is attached or the device-level
link is not connected, with -2 when the connection is not OPEN; otherwise
hand exactly one WRITE frame to the transport (`sendResult` is the oracle
return code of the `adb_writeMessage` transport writes) and move to WRITING
exactly when the send returned 0.  Returns (return code, updated connection,
frames handed to the transport). -/
def adb_write (adbDevice : Option Nat) (connected : Bool)
    (connection : adb_connection) (payload : List Nat) (sendResult : Int) :
    Int × adb_connection × List adb_message :=
  if adbDevice = none ∨ connected = false then (-1, connection, [])
  else if connection.status ≠ ADB_OPEN then (-2, connection, [])
  else
    (sendResult,
      if sendResult = 0 then { connection with status := ADB_WRITING }
      else connection,
      [adb_writeMessage_message A_WRTE connection.localID connection.remoteID
        payload])

/-- Function `adb_writeString`: same checks as `adb_write`; the frame payload is the
string bytes followed by the trailing NUL (`strlen(str) + 1` bytes, via
`adb_writeStringMessage`). -/
def adb_writeString (adbDevice : Option Nat) (connected : Bool)
    (connection : adb_connection) (str : List Nat) (sendResult : Int) :
    Int × adb_connection × List adb_message :=
  if adbDevice = none ∨ connected = false then (-1, connection, [])
  else if connection.status ≠ ADB_OPEN then (-2, connection, [])
  else
    (sendResult,
      if sendResult = 0 then { connection with status := ADB_WRITING }
      else connection,
      [adb_writeMessage_message A_WRTE connection.localID connection.remoteID
        (str ++ [0])])

/-- One engine step mutating the global state: the pool- and device-mutating
operations of the code, with the guards of their call sites (`adb_poll`
dispatches OKAY/CLOSE/WRITE only to slots whose status is not UNUSED).  The
relation over-approximates the real control flow (any order, any oracle
values), so invariants proved over it hold on every real run. -/
inductive AdbStep : AdbState → AdbState → Prop
| add (s : AdbState) (maxLen : Nat) (str : List Nat) (reconnect : Bool) :
    AdbStep s
      { s with connections := (adb_addConnection maxLen str reconnect s.connections).1 }
| openClosed (s : AdbState) (retryTime now : Nat) (hc : s.connected = true) :
    AdbStep s
      { s with connections := (adb_openClosedConnections retryTime now s.connections).1 }
| handshake (s : AdbState) (hd : s.adbDevice ≠ none) :
    AdbStep s { s with connected := true }
| okay (s : AdbState) (i : Nat) (message : adb_message)
    (h : i < s.connections.length)
    (hu : (s.connections.get ⟨i, h⟩).status ≠ ADB_UNUSED) :
    AdbStep s
      { s with connections :=
          s.connections.set i (adb_handleOkay (s.connections.get ⟨i, h⟩) message).1 }
| close (s : AdbState) (i : Nat) (h : i < s.connections.length)
    (hu : (s.connections.get ⟨i, h⟩).status ≠ ADB_UNUSED) :
    AdbStep s
      { s with connections :=
          s.connections.set i (adb_handleClose (s.connections.get ⟨i, h⟩)).1 }
| write (s : AdbState) (i : Nat) (message : adb_message)
    (reads : Nat → Nat → Int) (fuel : Nat) (c' : adb_connection)
    (evs : List (adb_eventType × Nat)) (okayMsg : adb_message)
    (h : i < s.connections.length)
    (hu : (s.connections.get ⟨i, h⟩).status ≠ ADB_UNUSED)
    (hw : adb_handleWrite reads fuel (s.connections.get ⟨i, h⟩) message =
      some (c', evs, okayMsg)) :
    AdbStep s { s with connections := s.connections.set i c' }
| writeOut (s : AdbState) (i : Nat) (payload : List Nat) (sendResult : Int)
    (h : i < s.connections.length) :
    AdbStep s
      { s with connections := s.connections.set i (adb_write s.adbDevice s.connected (s.connections.get ⟨i, h⟩) payload sendResult).2.1 }
| writeStringOut (s : AdbState) (i : Nat) (str : List Nat) (sendResult : Int)
    (h : i < s.connections.length) :
    AdbStep s
      { s with connections := s.connections.set i (adb_writeString s.adbDevice s.connected (s.connections.get ⟨i, h⟩) str sendResult).2.1 }
| usb (s : AdbState) (isAdb : Bool) (device : Nat) (event : usb_eventType) :
    AdbStep s (adb_usbEventHandler isAdb s device event).1

/-- Reachable engine states: the zero-initialised start state (any fixed pool
size, matching the static array of size `ADB_MAX_CONNECTIONS`, whose value is
configuration-dependent) closed under engine steps. -/
inductive AdbReachable : AdbState → Prop
| init (n : Nat) :
    AdbReachable ⟨none, false, List.replicate n adb_connection.initial⟩
| step (s s' : AdbState) (hs : AdbReachable s) (h : AdbStep s s') :
    AdbReachable s'

/-- The local-identifier invariant: every in-use slot carries
`localID = slot index + 1`. -/
def localIDInv (conns : List adb_connection) : Prop :=
  ∀ i (h : i < conns.length), (conns.get ⟨i, h⟩).status ≠ ADB_UNUSED →
    (conns.get ⟨i, h⟩).localID = i + 1

lemma un32_le32 (n : Nat) (h : n < 2 ^ 32) :
    un32 (n % 256) (n / 256 % 256) (n / 65536 % 256) (n / 16777216 % 256) = n := by
  unfold un32
  omega

lemma adb_checksum_eq_sum (payload : List Nat) :
    adb_checksum payload = payload.sum % 2 ^ 32 := by
  suffices h : ∀ s : Nat,
      payload.foldl (fun s b => (s + b) % 2 ^ 32) (s % 2 ^ 32) = (s + payload.sum) % 2 ^ 32 by
    have := h 0
    simpa [adb_checksum] using this
  induction payload with
  | nil => intro s; simp
  | cons b rest ih =>
      intro s
      have : (s % 2 ^ 32 + b) % 2 ^ 32 = (s + b) % 2 ^ 32 := by
        conv_rhs => rw [← Nat.mod_add_mod]
      simp only [List.foldl_cons, List.sum_cons, this]
      rw [ih (s + b), Nat.add_assoc]

lemma adb_checksum_lt (payload : List Nat) : adb_checksum payload < 2 ^ 32 := by
  rw [adb_checksum_eq_sum]
  exact Nat.mod_lt _ (by norm_num)

lemma magic_lt (command : Nat) (h : command < 2 ^ 32) :
    Nat.xor command 0xffffffff < 2 ^ 32 := by
  have h2 : (0xffffffff : Nat) < 2 ^ 32 := by norm_num
  exact Nat.xor_lt_two_pow h h2

lemma adb_decode_encode (m : adb_message) (hc : m.command < 2 ^ 32)
    (h0 : m.arg0 < 2 ^ 32) (h1 : m.arg1 < 2 ^ 32) (hl : m.data_length < 2 ^ 32)
    (hk : m.data_check < 2 ^ 32) (hm : m.magic < 2 ^ 32) :
    adb_decodeHeader (adb_encodeHeader m) = m := by
  simp only [adb_encodeHeader, le32, List.cons_append, List.nil_append]
  simp only [adb_decodeHeader, read32, List.getD_cons_succ, List.getD_cons_zero]
  cases m
  simp only [adb_message.mk.injEq]
  refine ⟨un32_le32 _ hc, un32_le32 _ h0, un32_le32 _ h1, un32_le32 _ hl,
    un32_le32 _ hk, un32_le32 _ hm⟩

lemma adb_pollMessage_encode (m : adb_message)
    (hdec : adb_decodeHeader (adb_encodeHeader m) = m)
    (hm : m.magic = Nat.xor m.command 0xffffffff) :
    adb_pollMessage 24 (adb_encodeHeader m) = some m := by
  unfold adb_pollMessage
  simp [hdec, hm]

/-- C1: for every command, arg0, arg1 and payload byte sequence, encoding a
message header (`adb_writeMessage` / `adb_writeEmptyMessage`) and then
decoding it (`adb_pollMessage`) recovers the original command, arg0, arg1 and
payload length, and the encoded checksum field equals the sum of all payload
bytes modulo `2 ^ 32`, with checksum 0 for an empty payload. -/
theorem claim_C1_codec_roundtrip (command arg0 arg1 : Nat) (payload : List Nat)
    (hc : command < 2 ^ 32) (h0 : arg0 < 2 ^ 32) (h1 : arg1 < 2 ^ 32)
    (hl : payload.length < 2 ^ 32) :
    adb_pollMessage 24
        (adb_encodeHeader (adb_writeMessage_message command arg0 arg1 payload)) =
      some (adb_writeMessage_message command arg0 arg1 payload) ∧
    (adb_writeMessage_message command arg0 arg1 payload).command = command ∧
    (adb_writeMessage_message command arg0 arg1 payload).arg0 = arg0 ∧
    (adb_writeMessage_message command arg0 arg1 payload).arg1 = arg1 ∧
    (adb_writeMessage_message command arg0 arg1 payload).data_length =
      payload.length ∧
    (adb_writeMessage_message command arg0 arg1 payload).data_check =
      payload.sum % 2 ^ 32 ∧
    adb_pollMessage 24
        (adb_encodeHeader (adb_writeEmptyMessage_message command arg0 arg1)) =
      some (adb_writeEmptyMessage_message command arg0 arg1) ∧
    (adb_writeEmptyMessage_message command arg0 arg1).data_check = 0 ∧
    (adb_writeEmptyMessage_message command arg0 arg1).data_length = 0 := by
  have hdec : adb_decodeHeader
      (adb_encodeHeader (adb_writeMessage_message command arg0 arg1 payload)) =
      adb_writeMessage_message command arg0 arg1 payload :=
    adb_decode_encode _ hc h0 h1 hl (adb_checksum_lt payload) (magic_lt command hc)
  have hdec0 : adb_decodeHeader
      (adb_encodeHeader (adb_writeEmptyMessage_message command arg0 arg1)) =
      adb_writeEmptyMessage_message command arg0 arg1 :=
    adb_decode_encode _ hc h0 h1 (by simp [adb_writeEmptyMessage_message])
      (by simp [adb_writeEmptyMessage_message]) (magic_lt command hc)
  exact ⟨adb_pollMessage_encode _ hdec rfl, rfl, rfl, rfl, rfl,
    adb_checksum_eq_sum payload, adb_pollMessage_encode _ hdec0 rfl, rfl, rfl⟩

/-- C1 witness: the round-trip evaluated at a concrete message. -/
theorem claim_C1_codec_roundtrip_witness :
    adb_pollMessage 24
        (adb_encodeHeader (adb_writeMessage_message A_WRTE 1 2 [10, 250, 7])) =
      some (adb_writeMessage_message A_WRTE 1 2 [10, 250, 7]) ∧
    (adb_writeMessage_message A_WRTE 1 2 [10, 250, 7]).data_check =
      [10, 250, 7].sum % 2 ^ 32 ∧
    (adb_writeEmptyMessage_message A_WRTE 1 2).data_check = 0 :=
  ⟨(claim_C1_codec_roundtrip A_WRTE 1 2 [10, 250, 7] (by norm_num [A_WRTE])
      (by norm_num) (by norm_num) (by norm_num)).1,
   (claim_C1_codec_roundtrip A_WRTE 1 2 [10, 250, 7] (by norm_num [A_WRTE])
      (by norm_num) (by norm_num) (by norm_num)).2.2.2.2.2.1,
   (claim_C1_codec_roundtrip A_WRTE 1 2 [10, 250, 7] (by norm_num [A_WRTE])
      (by norm_num) (by norm_num) (by norm_num)).2.2.2.2.2.2.2.1⟩

/-- C6: a received buffer whose decoded magic field differs from the bitwise
complement of its decoded command field is rejected by `adb_pollMessage`
(no valid message reported), for every transfer result and all values of the
other header fields. -/
theorem claim_C6_magic_mismatch_rejected (bytesRead : Int) (buf : List Nat)
    (hmagic : (adb_decodeHeader buf).magic ≠
      Nat.xor (adb_decodeHeader buf).command 0xffffffff) :
    adb_pollMessage bytesRead buf = none := by
  unfold adb_pollMessage
  split
  · rfl
  · simp [hmagic]

/-- C6 witness: a frame of 24 zero bytes has magic 0 but complemented
command 0xffffffff, so it is rejected. -/
theorem claim_C6_magic_mismatch_rejected_witness :
    adb_pollMessage 24 (List.replicate 24 0) = none :=
  claim_C6_magic_mismatch_rejected 24 (List.replicate 24 0) (by decide)

/-- C4 counterexample: with retry interval 1000, a CLOSED connection whose
last attempt was at time 0 is NOT reopened at time 1000 — exactly when the
retry interval has elapsed — because the code requires the elapsed time to
STRICTLY exceed the interval (`timeSinceLastConnect > ADB_CONNECTION_RETRY_TIME`).
This refutes "becomes eligible for a new OPEN exactly at ... the moment the
retry interval has elapsed". -/
theorem claim_C4_counterexample :
    (adb_openConnectionStep 1000 1000
      { adb_connection.initial with status := ADB_CLOSED }).2 = none ∧
    (adb_openConnectionStep 1000 1000
      { adb_connection.initial with status := ADB_CLOSED }).1 =
      { adb_connection.initial with status := ADB_CLOSED } := by
  constructor <;> decide

/-- C4 amended: for every CLOSED connection, the poll step sends an OPEN for
it iff the elapsed time since `last_open_attempt` (32-bit wrap-around
difference) STRICTLY exceeds the retry interval; while the elapsed time is at
most the interval nothing is sent and the slot is unchanged; once strictly
past the interval the OPEN frame carries the connection's localID and its
connection string. -/
theorem claim_C4_retry_gate (retryTime now : Nat) (c : adb_connection)
    (hst : c.status = ADB_CLOSED) :
    ((adb_openConnectionStep retryTime now c).2 ≠ none ↔
      sub32 now (c.lastConnectionAttempt : Int) > retryTime) ∧
    (sub32 now (c.lastConnectionAttempt : Int) ≤ retryTime →
      (adb_openConnectionStep retryTime now c).2 = none ∧
      (adb_openConnectionStep retryTime now c).1 = c) ∧
    (sub32 now (c.lastConnectionAttempt : Int) > retryTime →
      (adb_openConnectionStep retryTime now c).2 =
        some (adb_writeMessage_message A_OPEN c.localID 0
          (c.connectionString ++ [0])) ∧
      (adb_openConnectionStep retryTime now c).1 =
        { c with status := ADB_OPENING, lastConnectionAttempt := now }) := by
  by_cases hgt : sub32 now (c.lastConnectionAttempt : Int) > retryTime
  · refine ⟨?_, ?_, ?_⟩
    · simp [adb_openConnectionStep, hst, hgt]
    · intro hle; omega
    · intro _; simp [adb_openConnectionStep, hst, hgt]
  · refine ⟨?_, ?_, ?_⟩
    · simp [adb_openConnectionStep, hst, hgt]
    · intro _; simp [adb_openConnectionStep, hst, hgt]
    · intro hc; exact absurd hc hgt

/-- C4 witness: at elapsed time 1001 with interval 1000 the OPEN is sent. -/
theorem claim_C4_retry_gate_witness :
    (adb_openConnectionStep 1000 1001
      { adb_connection.initial with status := ADB_CLOSED }).2 =
      some (adb_writeMessage_message A_OPEN
        ({ adb_connection.initial with status := ADB_CLOSED } : adb_connection).localID 0
        (({ adb_connection.initial with status := ADB_CLOSED } : adb_connection).connectionString ++ [0])) ∧
    (adb_openConnectionStep 1000 1001
      { adb_connection.initial with status := ADB_CLOSED }).1 =
      { ({ adb_connection.initial with status := ADB_CLOSED } : adb_connection) with
          status := ADB_OPENING, lastConnectionAttempt := 1001 } :=
  (claim_C4_retry_gate 1000 1001
    { adb_connection.initial with status := ADB_CLOSED } rfl).2.2 (by decide)

lemma sub32_exact (a : Nat) (r : Int) (h0 : 0 ≤ r) (hr : r ≤ (a : Int))
    (ha : a < 2 ^ 32) : sub32 a r = a - r.toNat := by
  unfold sub32
  omega

/-- C2: a WRITE frame declaring payload_length 130 with transport packet size
64, when every bulk read returns exactly the requested byte count, fires
exactly three CONNECTION_RECEIVE events of lengths 64, 64, 2 in that order,
sends exactly one OKAY whose arg0/arg1 are the frame's arg1/arg0 swapped,
and leaves the connection in its pre-frame state (OPEN). -/
theorem claim_C2_write_reassembly (connection : adb_connection)
    (message : adb_message) (hopen : connection.status = ADB_OPEN)
    (hlen : message.data_length = 130) :
    adb_handleWrite (fun _ len => (len : Int)) 130 connection message =
      some ({ connection with status := ADB_OPEN, dataRead := 130, dataSize := 130 },
        [(ADB_CONNECTION_RECEIVE, 64), (ADB_CONNECTION_RECEIVE, 64),
          (ADB_CONNECTION_RECEIVE, 2)],
        adb_writeEmptyMessage_message A_OKAY message.arg1 message.arg0) ∧
    (adb_writeEmptyMessage_message A_OKAY message.arg1 message.arg0).arg0 =
      message.arg1 ∧
    (adb_writeEmptyMessage_message A_OKAY message.arg1 message.arg0).arg1 =
      message.arg0 ∧
    ({ connection with status := ADB_OPEN, dataRead := 130, dataSize := 130 } :
      adb_connection).status = connection.status := by
  have hloop : adb_handleWriteLoop (fun _ len => (len : Int)) 130 0 130 0 [] =
      some ([64, 64, 2], 130) := by decide
  refine ⟨?_, rfl, rfl, by rw [hopen]⟩
  unfold adb_handleWrite
  rw [hlen, hloop]
  simp [hopen]

/-- C2 witness: the reassembly evaluated at a concrete OPEN connection and a
concrete WRITE frame of declared length 130. -/
theorem claim_C2_write_reassembly_witness :
    adb_handleWrite (fun _ len => (len : Int)) 130
        { adb_connection.initial with status := ADB_OPEN }
        { command := A_WRTE, arg0 := 5, arg1 := 7, data_length := 130,
          data_check := 0, magic := 0 } =
      some ({ { adb_connection.initial with status := ADB_OPEN } with
          status := ADB_OPEN, dataRead := 130, dataSize := 130 },
        [(ADB_CONNECTION_RECEIVE, 64), (ADB_CONNECTION_RECEIVE, 64),
          (ADB_CONNECTION_RECEIVE, 2)],
        adb_writeEmptyMessage_message A_OKAY 7 5) :=
  (claim_C2_write_reassembly { adb_connection.initial with status := ADB_OPEN }
    { command := A_WRTE, arg0 := 5, arg1 := 7, data_length := 130,
      data_check := 0, magic := 0 } rfl rfl).1

/-- C7: during inbound payload reassembly, a bulk read returning fewer bytes
than the requested chunk length (a short read) still advances the progress
counter `dataRead` by the REQUESTED length, and does not abort reassembly:
the iteration proceeds to the next loop round, and the remaining-byte counter
stays positive, so the loop keeps reading. -/
theorem claim_C7_short_read_accounting (reads : Nat → Nat → Int)
    (fuel k bytesLeft dataRead : Nat) (events : List Nat)
    (hpos : 0 < bytesLeft) (hbl : bytesLeft < 2 ^ 32)
    (hr0 : 0 ≤ reads k (min bytesLeft ADB_USB_PACKETSIZE))
    (hshort : reads k (min bytesLeft ADB_USB_PACKETSIZE) <
      ((min bytesLeft ADB_USB_PACKETSIZE : Nat) : Int)) :
    adb_handleWriteLoop reads (fuel + 1) k bytesLeft dataRead events =
      adb_handleWriteLoop reads fuel (k + 1)
        (bytesLeft - (reads k (min bytesLeft ADB_USB_PACKETSIZE)).toNat)
        ((dataRead + min bytesLeft ADB_USB_PACKETSIZE) % 2 ^ 32)
        (events ++ [min bytesLeft ADB_USB_PACKETSIZE]) ∧
    0 < bytesLeft - (reads k (min bytesLeft ADB_USB_PACKETSIZE)).toNat := by
  have hminle : min bytesLeft ADB_USB_PACKETSIZE ≤ bytesLeft :=
    Nat.min_le_left _ _
  have hrle : reads k (min bytesLeft ADB_USB_PACKETSIZE) ≤ (bytesLeft : Int) := by
    have : ((min bytesLeft ADB_USB_PACKETSIZE : Nat) : Int) ≤ (bytesLeft : Int) := by
      exact_mod_cast hminle
    omega
  have hsub : sub32 bytesLeft (reads k (min bytesLeft ADB_USB_PACKETSIZE)) =
      bytesLeft - (reads k (min bytesLeft ADB_USB_PACKETSIZE)).toNat :=
    sub32_exact _ _ hr0 hrle hbl
  have hne : bytesLeft ≠ 0 := by omega
  constructor
  · simp only [adb_handleWriteLoop, if_neg hne]
    rw [hsub]
  · have htn : (reads k (min bytesLeft ADB_USB_PACKETSIZE)).toNat <
        min bytesLeft ADB_USB_PACKETSIZE := by omega
    omega

/-- C7 witness: a short read of 3 bytes against a requested chunk of 64 at a
remaining count of 130. -/
theorem claim_C7_short_read_accounting_witness :
    adb_handleWriteLoop (fun _ _ => (3 : Int)) 6 0 130 0 [] =
      adb_handleWriteLoop (fun _ _ => (3 : Int)) 5 1
        (130 - ((3 : Int)).toNat) ((0 + min 130 ADB_USB_PACKETSIZE) % 2 ^ 32)
        ([] ++ [min 130 ADB_USB_PACKETSIZE]) ∧
    0 < 130 - ((3 : Int)).toNat := by
  have h := claim_C7_short_read_accounting (fun _ _ => (3 : Int)) 5 0 130 0 []
    (by norm_num) (by norm_num) (by norm_num) (by norm_num [ADB_USB_PACKETSIZE])
  exact h

/-- C10 counterexample: with declared payload_length `2 ^ 32 - 1` and a bulk
read returning the error value -1, the `uint32_t` remaining-byte counter
wraps ((2^32 - 1) - (-1) = 0 modulo 2^32) and the loop TERMINATES after a
single iteration — refuting the claim's "a read returning zero or a negative
error value makes the counter non-decreasing and the loop does not
terminate". -/
theorem claim_C10_counterexample :
    adb_handleWriteLoop (fun _ _ => (-1 : Int)) 1 0 (2 ^ 32 - 1) 0 [] =
      some ([64], 64) ∧
    sub32 (2 ^ 32 - 1) (-1) = 0 := by
  constructor <;> decide

/-- C10 amended: (i) when every bulk read returns a positive byte count no
larger than the requested chunk length, the reassembly loop terminates for
every declared payload_length below 2^32 (payload_length iterations of fuel
suffice); (ii) in that regime the remaining-byte counter decreases by exactly
the actual number of bytes read; (iii) a read returning zero leaves the
counter unchanged and the loop never terminates; (iv) a negative return
value leaves the counter non-decreasing only while the 32-bit subtraction
does not wrap (the counterexample terminates when it wraps). -/
theorem claim_C10_loop_termination :
    (∀ reads : Nat → Nat → Int,
      (∀ k len, 0 < len → 0 < reads k len ∧ reads k len ≤ (len : Int)) →
      ∀ fuel k bytesLeft dataRead events, bytesLeft < 2 ^ 32 → bytesLeft ≤ fuel →
        (adb_handleWriteLoop reads fuel k bytesLeft dataRead events).isSome = true) ∧
    (∀ (a : Nat) (r : Int), 0 ≤ r → r ≤ (a : Int) → a < 2 ^ 32 →
      sub32 a r = a - r.toNat) ∧
    (∀ fuel k bytesLeft dataRead events, 0 < bytesLeft → bytesLeft < 2 ^ 32 →
      adb_handleWriteLoop (fun _ _ => 0) fuel k bytesLeft dataRead events = none) ∧
    (∀ (a : Nat) (r : Int), r ≤ 0 → (a : Int) - r < 2 ^ 32 → a ≤ sub32 a r) := by
  refine ⟨?_, sub32_exact, ?_, ?_⟩
  · intro reads hreads fuel
    induction fuel with
    | zero =>
        intro k bytesLeft dataRead events hlt hle
        have h0 : bytesLeft = 0 := by omega
        simp [adb_handleWriteLoop, h0]
    | succ fuel ih =>
        intro k bytesLeft dataRead events hlt hle
        by_cases h0 : bytesLeft = 0
        · simp [adb_handleWriteLoop, h0]
        · have hlenpos : 0 < min bytesLeft ADB_USB_PACKETSIZE := by
            simp only [ADB_USB_PACKETSIZE]
            omega
          obtain ⟨hr1, hr2⟩ := hreads k _ hlenpos
          have hminle : min bytesLeft ADB_USB_PACKETSIZE ≤ bytesLeft :=
            Nat.min_le_left _ _
          have hrle : reads k (min bytesLeft ADB_USB_PACKETSIZE) ≤ (bytesLeft : Int) := by
            have : ((min bytesLeft ADB_USB_PACKETSIZE : Nat) : Int) ≤ (bytesLeft : Int) := by
              exact_mod_cast hminle
            omega
          have hsub : sub32 bytesLeft (reads k (min bytesLeft ADB_USB_PACKETSIZE)) =
              bytesLeft - (reads k (min bytesLeft ADB_USB_PACKETSIZE)).toNat :=
            sub32_exact _ _ (le_of_lt hr1) hrle hlt
          simp only [adb_handleWriteLoop, if_neg h0]
          rw [hsub]
          apply ih
          · omega
          · have h1 : 1 ≤ (reads k (min bytesLeft ADB_USB_PACKETSIZE)).toNat := by
              omega
            omega
  · intro fuel
    induction fuel with
    | zero =>
        intro k bytesLeft dataRead events hpos hlt
        have h0 : bytesLeft ≠ 0 := by omega
        simp [adb_handleWriteLoop, h0]
    | succ fuel ih =>
        intro k bytesLeft dataRead events hpos hlt
        have h0 : bytesLeft ≠ 0 := by omega
        have hsub : sub32 bytesLeft ((fun _ _ => (0 : Int)) k
            (min bytesLeft ADB_USB_PACKETSIZE)) = bytesLeft := by
          have := sub32_exact bytesLeft 0 (le_refl _) (by exact_mod_cast Nat.zero_le _) hlt
          simpa using this
        simp only [adb_handleWriteLoop, if_neg h0]
        rw [hsub]
        exact ih (k + 1) bytesLeft _ _ hpos hlt
  · intro a r hr hw
    unfold sub32
    omega

/-- C10 witness: with exact reads the loop finishes a 130-byte payload within
130 iterations of fuel. -/
theorem claim_C10_loop_termination_witness :
    (adb_handleWriteLoop (fun _ len => (len : Int)) 130 0 130 0 []).isSome = true :=
  claim_C10_loop_termination.1 (fun _ len => (len : Int))
    (fun _ len h => ⟨by simpa using h, by simp⟩) 130 0 130 0 []
    (by norm_num) (le_refl _)

lemma adb_write_not_open_eq (adbDevice : Option Nat) (connected : Bool)
    (connection : adb_connection) (payload : List Nat) (sr : Int)
    (hst : connection.status ≠ ADB_OPEN) :
    adb_write adbDevice connected connection payload sr =
      (if adbDevice = none ∨ connected = false then -1 else -2, connection, []) := by
  by_cases hdev : adbDevice = none ∨ connected = false <;>
    simp [adb_write, hdev, hst]

lemma adb_writeString_not_open_eq (adbDevice : Option Nat) (connected : Bool)
    (connection : adb_connection) (str : List Nat) (sr : Int)
    (hst : connection.status ≠ ADB_OPEN) :
    adb_writeString adbDevice connected connection str sr =
      (if adbDevice = none ∨ connected = false then -1 else -2, connection, []) := by
  by_cases hdev : adbDevice = none ∨ connected = false <;>
    simp [adb_writeString, hdev, hst]

/-- C8 counterexample: calling `adb_write` on a connection that is not OPEN
while the device link is down returns -1 — the NOT-CONNECTED error, not the
not-open error -2 — refuting "calling adb_write ... on it fails with the
not-open error" as a universal statement.  (No outbound frame is produced,
as the claim also says.) -/
theorem claim_C8_counterexample :
    (adb_write none false { adb_connection.initial with status := ADB_CLOSED }
      [1] 0).1 = -1 ∧
    ((-1 : Int) = -2 → False) ∧
    (adb_write none false { adb_connection.initial with status := ADB_CLOSED }
      [1] 0).2.2 = [] := by
  refine ⟨by decide, by decide, by decide⟩

/-- C8 amended: a call to `adb_write` or `adb_writeString` on a connection
not in the OPEN state always fails with a negative return code, hands no
outbound frame to the transport and leaves the connection unchanged,
regardless of the arguments; the error is the not-open code -2 whenever the
device link is up (a device is attached and the device-level connected flag
is set), and the not-connected code -1 when the link is down. -/
theorem claim_C8_write_not_open (adbDevice : Option Nat) (connected : Bool)
    (connection : adb_connection) (payload str : List Nat) (sr1 sr2 : Int)
    (hst : connection.status ≠ ADB_OPEN) :
    ((adb_write adbDevice connected connection payload sr1).1 < 0 ∧
      (adb_write adbDevice connected connection payload sr1).2.2 = [] ∧
      (adb_write adbDevice connected connection payload sr1).2.1 = connection ∧
      (adbDevice ≠ none → connected = true →
        (adb_write adbDevice connected connection payload sr1).1 = -2) ∧
      (adbDevice = none ∨ connected = false →
        (adb_write adbDevice connected connection payload sr1).1 = -1)) ∧
    ((adb_writeString adbDevice connected connection str sr2).1 < 0 ∧
      (adb_writeString adbDevice connected connection str sr2).2.2 = [] ∧
      (adb_writeString adbDevice connected connection str sr2).2.1 = connection ∧
      (adbDevice ≠ none → connected = true →
        (adb_writeString adbDevice connected connection str sr2).1 = -2) ∧
      (adbDevice = none ∨ connected = false →
        (adb_writeString adbDevice connected connection str sr2).1 = -1)) := by
  rw [adb_write_not_open_eq adbDevice connected connection payload sr1 hst,
    adb_writeString_not_open_eq adbDevice connected connection str sr2 hst]
  by_cases hdev : adbDevice = none ∨ connected = false
  · rw [if_pos hdev]
    refine ⟨⟨by norm_num, rfl, rfl, ?_, fun _ => rfl⟩,
        ⟨by norm_num, rfl, rfl, ?_, fun _ => rfl⟩⟩ <;>
      · intro hd hc
        rcases hdev with h | h
        · exact absurd h hd
        · rw [h] at hc
          cases hc
  · rw [if_neg hdev]
    exact ⟨⟨by norm_num, rfl, rfl, fun _ _ => rfl, fun h => absurd h hdev⟩,
      ⟨by norm_num, rfl, rfl, fun _ _ => rfl, fun h => absurd h hdev⟩⟩

/-- C8 witness: a CLOSED connection with the link up gets exactly the
not-open error and no frame. -/
theorem claim_C8_write_not_open_witness :
    ((adb_write (some 1) true { adb_connection.initial with status := ADB_CLOSED }
      [1] 0).1 < 0 ∧
      (adb_write (some 1) true { adb_connection.initial with status := ADB_CLOSED }
        [1] 0).2.2 = [] ∧
      (adb_write (some 1) true { adb_connection.initial with status := ADB_CLOSED }
        [1] 0).2.1 = { adb_connection.initial with status := ADB_CLOSED } ∧
      ((some 1 : Option Nat) ≠ none → true = true →
        (adb_write (some 1) true { adb_connection.initial with status := ADB_CLOSED }
          [1] 0).1 = -2) ∧
      ((some 1 : Option Nat) = none ∨ true = false →
        (adb_write (some 1) true { adb_connection.initial with status := ADB_CLOSED }
          [1] 0).1 = -1)) ∧
    ((adb_writeString (some 1) true { adb_connection.initial with status := ADB_CLOSED }
      [2] 0).1 < 0 ∧
      (adb_writeString (some 1) true { adb_connection.initial with status := ADB_CLOSED }
        [2] 0).2.2 = [] ∧
      (adb_writeString (some 1) true { adb_connection.initial with status := ADB_CLOSED }
        [2] 0).2.1 = { adb_connection.initial with status := ADB_CLOSED } ∧
      ((some 1 : Option Nat) ≠ none → true = true →
        (adb_writeString (some 1) true { adb_connection.initial with status := ADB_CLOSED }
          [2] 0).1 = -2) ∧
      ((some 1 : Option Nat) = none ∨ true = false →
        (adb_writeString (some 1) true { adb_connection.initial with status := ADB_CLOSED }
          [2] 0).1 = -1)) :=
  claim_C8_write_not_open (some 1) true
    { adb_connection.initial with status := ADB_CLOSED } [1] [2] 0 0 (by decide)

lemma writing_update_ne (connection : adb_connection)
    (hopen : connection.status = ADB_OPEN) :
    ({ connection with status := ADB_WRITING } : adb_connection) ≠ connection := by
  intro h
  have hs := congrArg adb_connection.status h
  simp [hopen] at hs

lemma adb_write_conn_eq (adbDevice : Option Nat) (connected : Bool)
    (connection : adb_connection) (payload : List Nat) (sr : Int) :
    (adb_write adbDevice connected connection payload sr).2.1 =
      if adbDevice ≠ none ∧ connected = true ∧ connection.status = ADB_OPEN ∧
          sr = 0
      then { connection with status := ADB_WRITING } else connection := by
  by_cases hd : adbDevice = none
  · simp [adb_write, hd]
  · cases connected with
    | false => simp [adb_write, hd]
    | true =>
      by_cases hs : connection.status = ADB_OPEN
      · by_cases hz : sr = 0 <;> simp [adb_write, hd, hs, hz]
      · simp [adb_write, hd, hs]

lemma adb_writeString_conn_eq (adbDevice : Option Nat) (connected : Bool)
    (connection : adb_connection) (str : List Nat) (sr : Int) :
    (adb_writeString adbDevice connected connection str sr).2.1 =
      if adbDevice ≠ none ∧ connected = true ∧ connection.status = ADB_OPEN ∧
          sr = 0
      then { connection with status := ADB_WRITING } else connection := by
  by_cases hd : adbDevice = none
  · simp [adb_writeString, hd]
  · cases connected with
    | false => simp [adb_writeString, hd]
    | true =>
      by_cases hs : connection.status = ADB_OPEN
      · by_cases hz : sr = 0 <;> simp [adb_writeString, hd, hs, hz]
      · simp [adb_writeString, hd, hs]

/-- C9: `adb_write` and `adb_writeString` change the connection's state to
WRITING exactly when the entry checks pass (device attached, device-level
connected, connection OPEN) and the underlying message send returns success
(0); on every failure path — no device, not connected, connection not OPEN,
or a nonzero transport return code from the send — the connection record,
state and all other fields, is left completely unchanged. -/
theorem claim_C9_writing_transition (adbDevice : Option Nat) (connected : Bool)
    (connection : adb_connection) (payload str : List Nat) (sendResult : Int) :
    (((adb_write adbDevice connected connection payload sendResult).2.1 ≠
        connection ↔
      (adbDevice ≠ none ∧ connected = true ∧ connection.status = ADB_OPEN ∧
        sendResult = 0)) ∧
     ((adbDevice ≠ none ∧ connected = true ∧ connection.status = ADB_OPEN ∧
        sendResult = 0) →
      (adb_write adbDevice connected connection payload sendResult).2.1 =
        { connection with status := ADB_WRITING }) ∧
     (¬(adbDevice ≠ none ∧ connected = true ∧ connection.status = ADB_OPEN ∧
        sendResult = 0) →
      (adb_write adbDevice connected connection payload sendResult).2.1 =
        connection)) ∧
    (((adb_writeString adbDevice connected connection str sendResult).2.1 ≠
        connection ↔
      (adbDevice ≠ none ∧ connected = true ∧ connection.status = ADB_OPEN ∧
        sendResult = 0)) ∧
     ((adbDevice ≠ none ∧ connected = true ∧ connection.status = ADB_OPEN ∧
        sendResult = 0) →
      (adb_writeString adbDevice connected connection str sendResult).2.1 =
        { connection with status := ADB_WRITING }) ∧
     (¬(adbDevice ≠ none ∧ connected = true ∧ connection.status = ADB_OPEN ∧
        sendResult = 0) →
      (adb_writeString adbDevice connected connection str sendResult).2.1 =
        connection)) := by
  rw [adb_write_conn_eq, adb_writeString_conn_eq]
  by_cases hP : adbDevice ≠ none ∧ connected = true ∧
      connection.status = ADB_OPEN ∧ sendResult = 0
  · have hne := writing_update_ne connection hP.2.2.1
    rw [if_pos hP]
    exact ⟨⟨iff_of_true hne hP, fun _ => rfl, fun h => absurd hP h⟩,
      ⟨iff_of_true hne hP, fun _ => rfl, fun h => absurd hP h⟩⟩
  · rw [if_neg hP]
    exact ⟨⟨iff_of_false (fun h => h rfl) hP, fun h => absurd h hP,
        fun _ => rfl⟩,
      ⟨iff_of_false (fun h => h rfl) hP, fun h => absurd h hP, fun _ => rfl⟩⟩

lemma adb_closeAllAux_fst (l : List adb_connection) : ∀ k,
    (adb_closeAllAux k l).1 = l.map (fun c =>
      if c.status = ADB_UNUSED ∨ c.status = ADB_CLOSED then c
      else (adb_handleClose c).1) := by
  induction l with
  | nil => intro k; rfl
  | cons c rest ih =>
      intro k
      by_cases hc : c.status = ADB_UNUSED ∨ c.status = ADB_CLOSED <;>
        simp [adb_closeAllAux, hc, ih]

lemma adb_closeAllAux_events_ge (l : List adb_connection) : ∀ k p,
    p ∈ (adb_closeAllAux k l).2 → k ≤ p.1 := by
  induction l with
  | nil => intro k p hp; simp [adb_closeAllAux] at hp
  | cons c rest ih =>
      intro k p hp
      by_cases hc : c.status = ADB_UNUSED ∨ c.status = ADB_CLOSED
      · simp only [adb_closeAllAux, if_pos hc] at hp
        have := ih (k + 1) p hp
        omega
      · simp only [adb_closeAllAux, if_neg hc, List.mem_cons] at hp
        rcases hp with h | h
        · rw [h]
        · have := ih (k + 1) p h
          omega

lemma adb_closeAllAux_events_filter (l : List adb_connection) :
    ∀ k j (hj : j < l.length),
    (adb_closeAllAux k l).2.filter (fun p => decide (p.1 = k + j)) =
      (if (l.get ⟨j, hj⟩).status = ADB_UNUSED ∨
          (l.get ⟨j, hj⟩).status = ADB_CLOSED
       then [] else [(k + j, (adb_handleClose (l.get ⟨j, hj⟩)).2)]) := by
  induction l with
  | nil => intro k j hj; exact absurd hj (by simp)
  | cons c rest ih =>
      intro k j hj
      have htail : (adb_closeAllAux (k + 1) rest).2.filter
          (fun p => decide (p.1 = k)) = [] := by
        apply List.filter_eq_nil_iff.mpr
        intro p hp
        have := adb_closeAllAux_events_ge rest (k + 1) p hp
        simp
        omega
      cases j with
      | zero =>
          by_cases hc : c.status = ADB_UNUSED ∨ c.status = ADB_CLOSED
          · simp only [adb_closeAllAux, if_pos hc, List.get, Nat.add_zero]
            exact htail
          · simp only [adb_closeAllAux, if_neg hc, List.get, Nat.add_zero,
              List.filter_cons]
            rw [if_pos (by simp : (decide True = true))]
            rw [htail]
      | succ j' =>
          have hlen : (c :: rest).length = rest.length + 1 :=
            List.length_cons c rest
          have hj' : j' < rest.length := by omega
          have harith : k + (j' + 1) = (k + 1) + j' := by omega
          have hne : ¬(decide ((k, (adb_handleClose c).2).1 = k + (j' + 1)) = true) := by
            simp
          by_cases hc : c.status = ADB_UNUSED ∨ c.status = ADB_CLOSED
          · simp only [adb_closeAllAux, if_pos hc, List.get]
            rw [harith]
            exact ih (k + 1) j' hj'
          · simp only [adb_closeAllAux, if_neg hc, List.get, List.filter_cons]
            rw [if_neg hne]
            rw [harith]
            exact ih (k + 1) j' hj'

/-- C5 counterexample: a device disconnect while a connection is in the
OPENING state fires CONNECTION_FAILED for it — not CONNECTION_CLOSE as the
claim states for every connection that is neither UNUSED nor CLOSED. -/
theorem claim_C5_counterexample :
    (adb_usbEventHandler false
      ⟨some 3, true, [{ adb_connection.initial with status := ADB_OPENING, localID := 1 }]⟩
      3 usb_eventType.USB_DISCONNECT).2 = [(0, ADB_CONNECTION_FAILED)] ∧
    (ADB_CONNECTION_FAILED = ADB_CONNECTION_CLOSE → False) := by
  refine ⟨by decide, by decide⟩

/-- C5 amended: on a transport-level disconnect of the attached device, for
every connection whose state is neither UNUSED nor CLOSED exactly one event
is fired — CONNECTION_FAILED if it was still OPENING, CONNECTION_CLOSE in
every other case — while no event is fired for connections already UNUSED or
CLOSED, which are left untouched; the device-level connected flag is cleared
and the device reference detached; torn-down persistent connections end in
CLOSED and non-persistent ones in UNUSED. -/
theorem claim_C5_disconnect (isAdb : Bool) (st : AdbState) (device : Nat)
    (hdev : st.adbDevice = some device) :
    (adb_usbEventHandler isAdb st device usb_eventType.USB_DISCONNECT).1.connected = false ∧
    (adb_usbEventHandler isAdb st device usb_eventType.USB_DISCONNECT).1.adbDevice = none ∧
    (adb_usbEventHandler isAdb st device usb_eventType.USB_DISCONNECT).1.connections.length =
      st.connections.length ∧
    ∀ i (hi : i < st.connections.length)
      (hi2 : i < (adb_usbEventHandler isAdb st device
        usb_eventType.USB_DISCONNECT).1.connections.length),
      (((st.connections.get ⟨i, hi⟩).status = ADB_UNUSED ∨
          (st.connections.get ⟨i, hi⟩).status = ADB_CLOSED) →
        ((adb_usbEventHandler isAdb st device usb_eventType.USB_DISCONNECT).2.filter
            (fun p => decide (p.1 = i)) = [] ∧
          (adb_usbEventHandler isAdb st device
            usb_eventType.USB_DISCONNECT).1.connections.get ⟨i, hi2⟩ =
            st.connections.get ⟨i, hi⟩)) ∧
      (¬((st.connections.get ⟨i, hi⟩).status = ADB_UNUSED ∨
          (st.connections.get ⟨i, hi⟩).status = ADB_CLOSED) →
        ((adb_usbEventHandler isAdb st device usb_eventType.USB_DISCONNECT).2.filter
            (fun p => decide (p.1 = i)) =
          [(i, if (st.connections.get ⟨i, hi⟩).status = ADB_OPENING
               then ADB_CONNECTION_FAILED else ADB_CONNECTION_CLOSE)] ∧
          ((adb_usbEventHandler isAdb st device
            usb_eventType.USB_DISCONNECT).1.connections.get ⟨i, hi2⟩).status =
            (if (st.connections.get ⟨i, hi⟩).reconnect then ADB_CLOSED
             else ADB_UNUSED))) := by
  have hhandler : adb_usbEventHandler isAdb st device usb_eventType.USB_DISCONNECT =
      ({ adbDevice := none
         connected := false
         connections := (adb_closeAll st.connections).1 },
        (adb_closeAll st.connections).2) := by
    simp [adb_usbEventHandler, hdev]
  rw [hhandler]
  dsimp only [adb_closeAll]
  have hfst : (adb_closeAllAux 0 st.connections).1 = st.connections.map
      (fun c => if c.status = ADB_UNUSED ∨ c.status = ADB_CLOSED then c
        else (adb_handleClose c).1) := adb_closeAllAux_fst st.connections 0
  refine ⟨rfl, rfl, ?_, ?_⟩
  · rw [hfst]
    exact List.length_map _ _
  · intro i hi hi2
    have hev := adb_closeAllAux_events_filter st.connections 0 i hi
    rw [Nat.zero_add] at hev
    have hget : (adb_closeAllAux 0 st.connections).1.get ⟨i, hi2⟩ =
        (fun c => if c.status = ADB_UNUSED ∨ c.status = ADB_CLOSED then c
          else (adb_handleClose c).1) (st.connections.get ⟨i, hi⟩) := by
      simp only [hfst, List.get_eq_getElem, List.getElem_map]
    constructor
    · intro hsc
      rw [if_pos hsc] at hev
      refine ⟨hev, ?_⟩
      rw [hget]
      simp only [if_pos hsc]
    · intro hsc
      rw [if_neg hsc] at hev
      refine ⟨?_, ?_⟩
      · rw [hev]
        rfl
      · rw [hget]
        simp only [if_neg hsc]
        simp [adb_handleClose]

/-- C5 witness: a pool with two OPEN connections and one CLOSED one; the
disconnect fires CONNECTION_CLOSE for connection 0 and nothing for the
CLOSED connection 2, and clears the device-level state. -/
theorem claim_C5_disconnect_witness :
    (adb_usbEventHandler true
      ⟨some 3, true,
        [{ adb_connection.initial with status := ADB_OPEN, localID := 1 },
         { adb_connection.initial with status := ADB_OPEN, localID := 2 },
         { adb_connection.initial with status := ADB_CLOSED, localID := 3 }]⟩
      3 usb_eventType.USB_DISCONNECT).1.connected = false ∧
    (adb_usbEventHandler true
      ⟨some 3, true,
        [{ adb_connection.initial with status := ADB_OPEN, localID := 1 },
         { adb_connection.initial with status := ADB_OPEN, localID := 2 },
         { adb_connection.initial with status := ADB_CLOSED, localID := 3 }]⟩
      3 usb_eventType.USB_DISCONNECT).2.filter (fun p => decide (p.1 = 0)) =
      [(0, ADB_CONNECTION_CLOSE)] ∧
    (adb_usbEventHandler true
      ⟨some 3, true,
        [{ adb_connection.initial with status := ADB_OPEN, localID := 1 },
         { adb_connection.initial with status := ADB_OPEN, localID := 2 },
         { adb_connection.initial with status := ADB_CLOSED, localID := 3 }]⟩
      3 usb_eventType.USB_DISCONNECT).2.filter (fun p => decide (p.1 = 2)) = [] := by
  refine ⟨(claim_C5_disconnect true _ 3 rfl).1, ?_, ?_⟩
  · have h := ((claim_C5_disconnect true
      ⟨some 3, true,
        [{ adb_connection.initial with status := ADB_OPEN, localID := 1 },
         { adb_connection.initial with status := ADB_OPEN, localID := 2 },
         { adb_connection.initial with status := ADB_CLOSED, localID := 3 }]⟩
      3 rfl).2.2.2 0 (by decide) (by decide)).2 (by decide)
    simpa using h.1
  · have h := ((claim_C5_disconnect true
      ⟨some 3, true,
        [{ adb_connection.initial with status := ADB_OPEN, localID := 1 },
         { adb_connection.initial with status := ADB_OPEN, localID := 2 },
         { adb_connection.initial with status := ADB_CLOSED, localID := 3 }]⟩
      3 rfl).2.2.2 2 (by decide) (by decide)).1 (by decide)
    exact h.1

lemma localIDInv_replicate (n : Nat) :
    localIDInv (List.replicate n adb_connection.initial) := by
  intro i h hst
  rw [List.get_eq_getElem, List.getElem_replicate] at hst
  exact absurd rfl hst

lemma localIDInv_set (conns : List adb_connection) (i : Nat)
    (h : i < conns.length) (c' : adb_connection) (inv : localIDInv conns)
    (hpres : c'.status ≠ ADB_UNUSED →
      c'.localID = (conns.get ⟨i, h⟩).localID ∧
      (conns.get ⟨i, h⟩).status ≠ ADB_UNUSED) :
    localIDInv (conns.set i c') := by
  intro j hj hst
  have hjl : j < conns.length := by
    rw [List.length_set] at hj
    exact hj
  rw [List.get_eq_getElem, List.getElem_set] at hst ⊢
  by_cases hij : i = j
  · simp only [if_pos hij] at hst ⊢
    obtain ⟨hl, hu⟩ := hpres hst
    rw [hl]
    rw [← hij]
    exact inv i h hu
  · simp only [if_neg hij] at hst ⊢
    exact inv j hjl hst

lemma localIDInv_map (conns : List adb_connection)
    (f : adb_connection → adb_connection) (inv : localIDInv conns)
    (hf : ∀ c, (f c).localID = c.localID ∧
      ((f c).status ≠ ADB_UNUSED → c.status ≠ ADB_UNUSED)) :
    localIDInv (conns.map f) := by
  intro j hj hst
  have hjl : j < conns.length := by
    rw [List.length_map] at hj
    exact hj
  rw [List.get_eq_getElem, List.getElem_map] at hst ⊢
  obtain ⟨hl, hs⟩ := hf (conns[j])
  rw [hl]
  exact inv j hjl (hs hst)

lemma adb_handleOkay_localID (c : adb_connection) (m : adb_message) :
    (adb_handleOkay c m).1.localID = c.localID := by
  by_cases h1 : c.status = ADB_OPENING
  · simp [adb_handleOkay, h1]
  · by_cases h2 : c.status = ADB_WRITING <;> simp [adb_handleOkay, h1, h2]

lemma adb_handleClose_localID (c : adb_connection) :
    (adb_handleClose c).1.localID = c.localID :=
  rfl

lemma adb_handleWrite_fields (reads : Nat → Nat → Int) (fuel : Nat)
    (c c' : adb_connection) (m : adb_message)
    (evs : List (adb_eventType × Nat)) (okayMsg : adb_message)
    (hw : adb_handleWrite reads fuel c m = some (c', evs, okayMsg)) :
    c'.localID = c.localID ∧ c'.status = c.status := by
  unfold adb_handleWrite at hw
  cases hloop : adb_handleWriteLoop reads fuel 0 m.data_length 0 [] with
  | none =>
      rw [hloop] at hw
      cases hw
  | some res =>
      obtain ⟨events, dataRead⟩ := res
      rw [hloop] at hw
      simp only [Option.some.injEq, Prod.mk.injEq] at hw
      obtain ⟨hc', -, -⟩ := hw
      exact ⟨by rw [← hc'], by rw [← hc']⟩

lemma adb_openConnectionStep_fields (retryTime now : Nat) (c : adb_connection) :
    (adb_openConnectionStep retryTime now c).1.localID = c.localID ∧
    ((adb_openConnectionStep retryTime now c).1.status ≠ ADB_UNUSED →
      c.status ≠ ADB_UNUSED) := by
  unfold adb_openConnectionStep
  by_cases hcnd : c.status = ADB_CLOSED ∧
      sub32 now (c.lastConnectionAttempt : Int) > retryTime
  · rw [if_pos hcnd]
    refine ⟨rfl, fun _ => ?_⟩
    rw [hcnd.1]
    decide
  · rw [if_neg hcnd]
    exact ⟨rfl, id⟩

lemma adb_write_fields (adbDevice : Option Nat) (connected : Bool)
    (c : adb_connection) (payload : List Nat) (sr : Int) :
    (adb_write adbDevice connected c payload sr).2.1.localID = c.localID ∧
    ((adb_write adbDevice connected c payload sr).2.1.status ≠ ADB_UNUSED →
      c.status ≠ ADB_UNUSED) := by
  rw [adb_write_conn_eq]
  by_cases hP : adbDevice ≠ none ∧ connected = true ∧ c.status = ADB_OPEN ∧
      sr = 0
  · rw [if_pos hP]
    refine ⟨rfl, fun _ => ?_⟩
    rw [hP.2.2.1]
    decide
  · rw [if_neg hP]
    exact ⟨rfl, id⟩

lemma adb_writeString_fields (adbDevice : Option Nat) (connected : Bool)
    (c : adb_connection) (str : List Nat) (sr : Int) :
    (adb_writeString adbDevice connected c str sr).2.1.localID = c.localID ∧
    ((adb_writeString adbDevice connected c str sr).2.1.status ≠ ADB_UNUSED →
      c.status ≠ ADB_UNUSED) := by
  rw [adb_writeString_conn_eq]
  by_cases hP : adbDevice ≠ none ∧ connected = true ∧ c.status = ADB_OPEN ∧
      sr = 0
  · rw [if_pos hP]
    refine ⟨rfl, fun _ => ?_⟩
    rw [hP.2.2.1]
    decide
  · rw [if_neg hP]
    exact ⟨rfl, id⟩

lemma localIDInv_addConnection (maxLen : Nat) (str : List Nat)
    (reconnect : Bool) (conns : List adb_connection) (inv : localIDInv conns) :
    localIDInv (adb_addConnection maxLen str reconnect conns).1 := by
  unfold adb_addConnection
  by_cases hlen : str.length + 1 > maxLen
  · rw [if_pos hlen]
    exact inv
  · rw [if_neg hlen]
    dsimp only
    by_cases hidx : conns.findIdx (fun c => decide (c.status = ADB_UNUSED)) <
        conns.length
    · rw [dif_pos hidx]
      dsimp only
      intro j hj hst
      have hjl : j < conns.length := by
        rw [List.length_set] at hj
        exact hj
      rw [List.get_eq_getElem, List.getElem_set] at hst ⊢
      by_cases hij : conns.findIdx (fun c => decide (c.status = ADB_UNUSED)) = j
      · simp only [if_pos hij] at hst ⊢
        simp [hij]
      · simp only [if_neg hij] at hst ⊢
        exact inv j hjl hst
    · rw [dif_neg hidx]
      exact inv

lemma localIDInv_closeAll (conns : List adb_connection)
    (inv : localIDInv conns) : localIDInv (adb_closeAll conns).1 := by
  rw [adb_closeAll, adb_closeAllAux_fst conns 0]
  apply localIDInv_map _ _ inv
  intro c
  by_cases hc : c.status = ADB_UNUSED ∨ c.status = ADB_CLOSED
  · rw [if_pos hc]
    exact ⟨rfl, id⟩
  · rw [if_neg hc]
    exact ⟨rfl, fun _ hu => hc (Or.inl hu)⟩

lemma localIDInv_usbEvent (isAdb : Bool) (st : AdbState) (device : Nat)
    (event : usb_eventType) (inv : localIDInv st.connections) :
    localIDInv (adb_usbEventHandler isAdb st device event).1.connections := by
  cases event with
  | USB_CONNECT =>
      cases isAdb <;> simp [adb_usbEventHandler] <;> exact inv
  | USB_DISCONNECT =>
      by_cases h : st.adbDevice = some device
      · simp only [adb_usbEventHandler, if_pos h]
        exact localIDInv_closeAll _ inv
      · simp only [adb_usbEventHandler, if_neg h]
        exact inv

lemma reachable_localIDInv (s : AdbState) (hs : AdbReachable s) :
    localIDInv s.connections := by
  induction hs with
  | init n => exact localIDInv_replicate n
  | step s s' hs hstep ih =>
      cases hstep with
      | add maxLen str reconnect =>
          exact localIDInv_addConnection maxLen str reconnect s.connections ih
      | openClosed retryTime now hc =>
          exact localIDInv_map s.connections _ ih
            (fun c => adb_openConnectionStep_fields retryTime now c)
      | handshake hd => exact ih
      | okay i message h hu =>
          exact localIDInv_set s.connections i h _ ih
            (fun _ => ⟨adb_handleOkay_localID _ message, hu⟩)
      | close i h hu =>
          exact localIDInv_set s.connections i h _ ih
            (fun _ => ⟨adb_handleClose_localID _, hu⟩)
      | write i message reads fuel c' evs okayMsg h hu hw =>
          exact localIDInv_set s.connections i h _ ih
            (fun _ => ⟨(adb_handleWrite_fields reads fuel _ c' message evs
              okayMsg hw).1, hu⟩)
      | writeOut i payload sendResult h =>
          exact localIDInv_set s.connections i h _ ih
            (fun hst => ⟨(adb_write_fields s.adbDevice s.connected _ payload
                sendResult).1,
              (adb_write_fields s.adbDevice s.connected _ payload
                sendResult).2 hst⟩)
      | writeStringOut i str sendResult h =>
          exact localIDInv_set s.connections i h _ ih
            (fun hst => ⟨(adb_writeString_fields s.adbDevice s.connected _ str
                sendResult).1,
              (adb_writeString_fields s.adbDevice s.connected _ str
                sendResult).2 hst⟩)
      | usb isAdb device event => exact localIDInv_usbEvent isAdb s device event ih

/-- C3: in every reachable pool state, no two in-use slots (status not
UNUSED) share a local_id; every in-use slot's local_id equals its slot
index + 1 and is non-zero (hence fixed while the slot stays in use, being
determined by the index); and after a slot returns to UNUSED a later
adb_addConnection may claim the same slot and hand out the same local_id
value again — shown by a concrete add / non-persistent close / add trace on
slot 0, which hands out local_id 1 twice. -/
theorem claim_C3_localID_invariant :
    (∀ s : AdbState, AdbReachable s →
      ∀ i (hi : i < s.connections.length),
        (s.connections.get ⟨i, hi⟩).status ≠ ADB_UNUSED →
          (s.connections.get ⟨i, hi⟩).localID = i + 1 ∧
          (s.connections.get ⟨i, hi⟩).localID ≠ 0 ∧
          ∀ j (hj : j < s.connections.length), j ≠ i →
            (s.connections.get ⟨j, hj⟩).status ≠ ADB_UNUSED →
            (s.connections.get ⟨j, hj⟩).localID ≠
              (s.connections.get ⟨i, hi⟩).localID) ∧
    ((adb_addConnection 8 [116] false [adb_connection.initial]).2 = some 0 ∧
      ((adb_addConnection 8 [116] false [adb_connection.initial]).1.getD 0
        adb_connection.initial).localID = 1 ∧
      ((adb_addConnection 8 [116] false [adb_connection.initial]).1.getD 0
        adb_connection.initial).status = ADB_CLOSED ∧
      (adb_handleClose ((adb_addConnection 8 [116] false
        [adb_connection.initial]).1.getD 0 adb_connection.initial)).1.status =
        ADB_UNUSED ∧
      (adb_addConnection 8 [117] false
        [(adb_handleClose ((adb_addConnection 8 [116] false
          [adb_connection.initial]).1.getD 0 adb_connection.initial)).1]).2 =
        some 0 ∧
      ((adb_addConnection 8 [117] false
        [(adb_handleClose ((adb_addConnection 8 [116] false
          [adb_connection.initial]).1.getD 0 adb_connection.initial)).1]).1.getD 0
        adb_connection.initial).localID = 1) := by
  constructor
  · intro s hs i hi hui
    have inv := reachable_localIDInv s hs
    have h1 := inv i hi hui
    refine ⟨h1, by omega, ?_⟩
    intro j hj hji huj
    have h2 := inv j hj huj
    omega
  · exact ⟨by decide, by decide, by decide, by decide, by decide, by decide⟩

/-- C3 witness: in the reachable state obtained by one adb_addConnection on a
one-slot pool, slot 0 is in use and its local_id is 0 + 1. -/
theorem claim_C3_localID_invariant_witness :
    (({ adbDevice := none
        connected := false
        connections := (adb_addConnection 8 [116] true
          (List.replicate 1 adb_connection.initial)).1 } : AdbState).connections.get
      ⟨0, by decide⟩).localID = 0 + 1 :=
  (claim_C3_localID_invariant.1 _
    (AdbReachable.step _ _ (AdbReachable.init 1)
      (AdbStep.add _ 8 [116] true)) 0 (by decide) (by decide)).1

/-- C9 witness: with the link up, an OPEN connection and a send returning 0,
the connection moves to WRITING; evaluated at concrete inputs. -/
theorem claim_C9_writing_transition_witness :
    (adb_write (some 1) true { adb_connection.initial with status := ADB_OPEN }
      [1] 0).2.1 =
      { { adb_connection.initial with status := ADB_OPEN } with
          status := ADB_WRITING } :=
  (claim_C9_writing_transition (some 1) true
    { adb_connection.initial with status := ADB_OPEN } [1] [2] 0).1.2.1
    ⟨by decide, rfl, rfl, rfl⟩
